import Mathlib

/-
Shallow embedding of the XMPP client core of the Dialogo repository
(src_backup/xmpp/client.rs, events.rs, mod.rs), for checking the
natural-language specification against the code.

Modelling conventions:
- JIDs are modelled as strings (the source's `Jid` values are only
  constructed, compared, rendered with `to_string`, and re-parsed from
  their own rendering, so the string model is faithful for everything
  the claims touch).
- `chrono::DateTime<Utc>` timestamps are modelled as `Nat` instants
  supplied by the environment (`now`).
- Rust `format!("{:?}", e)` on a fieldless enum renders the variant
  name verbatim (derived `Debug`); the `...Debug` functions below spell
  that rendering out.
- A Rust panic (`Option::unwrap` on `None`) is modelled by returning
  `none` from the handler: `none` means the dispatch task panics and
  produces no further observable effects.
- Persistence calls (`save_message`, `update_presence`,
  `add_roster_item`) are recorded as `DbCall` values in call order; the
  source ignores their results (`let _ = ...`), so their outcomes do
  not influence control flow.
-/

namespace Dialogo

/-- JIDs, modelled as their string rendering. -/
abbrev Jid := String

/-- `xmpp_parsers::presence::Show` (the well-known XMPP show values). -/
inductive PresenceShow where
  | Away
  | Chat
  | Dnd
  | Xa
  deriving DecidableEq

/-- The derived `Debug` rendering of `presence::Show`, as produced by
`format!("{:?}", s)` in `handle_presence` and `send_presence`. -/
def showDebug : PresenceShow → String
  | .Away => "Away"
  | .Chat => "Chat"
  | .Dnd => "Dnd"
  | .Xa => "Xa"

/-- `xmpp_parsers::presence::Type`. -/
inductive PresenceType where
  | Available
  | Unavailable
  | Subscribe
  | Subscribed
  | Unsubscribe
  | Unsubscribed
  | Error
  | Probe
  deriving DecidableEq

/-- `xmpp_parsers::message::MessageType`. -/
inductive MessageType where
  | Chat
  | Error
  | Groupchat
  | Headline
  | Normal
  deriving DecidableEq

/-- The derived `Debug` rendering of `message::MessageType`, as produced
by `format!("{:?}", message.type_)` in `handle_message`. -/
def messageTypeDebug : MessageType → String
  | .Chat => "Chat"
  | .Error => "Error"
  | .Groupchat => "Groupchat"
  | .Headline => "Headline"
  | .Normal => "Normal"

/-- `events.rs` `ChatState`. -/
inductive ChatState where
  | Active
  | Inactive
  | Gone
  | Composing
  | Paused
  deriving DecidableEq

/-- `client.rs` `ConnectionStatus`. -/
inductive ConnectionStatus where
  | Disconnected
  | Connecting
  | Connected
  | Reconnecting
  | Error (reason : String)
  deriving DecidableEq

/-- `storage.rs` `RosterItem` (the shape persisted/carried in
`XmppClientState.roster` and built inside `handle_iq`). -/
structure StorageRosterItem where
  jid : String
  name : Option String
  subscription : String
  groups : List String
  created_at : Nat
  deriving DecidableEq

/-- `events.rs` `RosterItem` (the shape carried by `RosterReceived`). -/
structure EventRosterItem where
  jid : Jid
  name : Option String
  subscription : String
  groups : List String
  approved : Bool
  ask : Option String
  deriving DecidableEq

/-- `events.rs` `XmppEvent`, restricted to the variants the client core
(`client.rs`) actually constructs, plus the remaining `*Error` variant
`AuthenticationError` (never produced by `client.rs`); the other
variants of `events.rs` (delivery receipts, MUC roster, disco, stream
management, carbons, file-transfer progress) are never produced by any
code path the claims quantify over. -/
inductive XmppEvent where
  | Connected (jid : Jid)
  | Disconnected (reason : String)
  | Connecting
  | ConnectionError (error : String)
  | AuthenticationSuccess
  | AuthenticationError (error : String)
  | MessageReceived (from_ «to» : Jid) (body stanza_id : String) (timestamp : Option Nat)
  | MessageSent («to» : Jid) (body stanza_id : String)
  | ChatStateReceived (from_ : Jid) (state : ChatState)
  | PresenceReceived (from_ : Jid) («show» : String) (status : Option String) (priority : Option Int)
  | PresenceSent («show» : String) (status : Option String)
  | RosterReceived (items : List EventRosterItem)
  | SubscriptionRequest (from_ : Jid)
  | SubscriptionApproved (jid : Jid)
  | SubscriptionDeclined (jid : Jid)
  | MucJoined (room_jid : Jid) (nickname : String)
  | MucLeft (room_jid : Jid)
  | MucMessageReceived (room_jid : Jid) (from_ : Jid) (nickname body : String) (timestamp : Option Nat)
  | FileTransferError (transfer_id error : String)
  | Error (error : String) (stanza : Option String)
  deriving DecidableEq

/-- One call into the persistence gateway (`storage.rs` `Database`),
with the arguments the client core passes. -/
inductive DbCall where
  | save_message (from_ «to» body type_ stanza_id : String)
  | update_presence (jid «show» : String) (status : Option String)
  | add_roster_item (user_jid contact_jid : String) (name : Option String) (groups : List String)
  deriving DecidableEq

/-- An inbound `xmpp_parsers::message::Message` as `handle_message`
reads it: optional from/to, the body texts in map order (the source
takes the first entry of the `bodies` map), optional id, type, and the
five chat-state marker children (`Option<_>` in the source, only ever
tested with `is_some`). -/
structure Message where
  «from» : Option Jid
  «to» : Option Jid
  bodies : List String
  id : Option String
  type_ : MessageType
  composing : Option Unit
  active : Option Unit
  paused : Option Unit
  inactive : Option Unit
  gone : Option Unit
  deriving DecidableEq

/-- An inbound `xmpp_parsers::presence::Presence` as `handle_presence`
reads it. -/
structure Presence where
  «from» : Option Jid
  «show» : Option PresenceShow
  status : Option String
  priority : Option Int
  type_ : PresenceType
  deriving DecidableEq

/-- A roster `<item/>` inside a roster IQ payload, as `handle_iq` reads
it (`xmpp_parsers::roster::Item`): jid, optional name, subscription
(rendered to a string by the source), groups. -/
structure RosterItemWire where
  jid : Jid
  name : Option String
  subscription : String
  groups : List String
  deriving DecidableEq

/-- The payload element of an IQ, as far as `handle_iq` inspects it:
either it parses as a `roster::Roster` (with its item list) or it is
some other element (`Roster::try_from` fails). -/
inductive IqPayload where
  | roster (items : List RosterItemWire)
  | other
  deriving DecidableEq

/-- An inbound `xmpp_parsers::iq::Iq` as `handle_iq` reads it. The
source accesses `iq.payload` as an `Option` and unwraps it. -/
structure Iq where
  «from» : Option Jid
  «to» : Option Jid
  payload : Option IqPayload
  deriving DecidableEq

/-- An inbound wire element after the source's sequential `try_from`
classification in `handle_stanza`: first `Message::try_from`, then
`Presence::try_from`, then `Iq::try_from`; `unparseable` stands for an
element on which all three conversions fail. -/
inductive Stanza where
  | message (m : Message)
  | presence (p : Presence)
  | iq (q : Iq)
  | unparseable
  deriving DecidableEq

/-- `XmppClient::handle_message` (client.rs lines 603-661): drops the
stanza when `from` is absent; otherwise persists it via `save_message`
(body defaulting to empty, id defaulting to empty, `to` defaulting to
the sender), emits at most one `ChatStateReceived` chosen by the
if/else-if chain composing, active, paused, inactive, gone, and emits
`MessageReceived` only when the body is non-empty. Returns the
persistence calls and the events in emission order. -/
def handle_message (m : Message) (now : Nat) : List DbCall × List XmppEvent :=
  match m.«from» with
  | none => ([], [])
  | some f =>
    let t := m.«to».getD f
    let body := (m.bodies.head?).getD ""
    let stanza_id := m.id.getD ""
    let db := [DbCall.save_message f t body (messageTypeDebug m.type_) stanza_id]
    let chatEvents :=
      if m.composing.isSome then [XmppEvent.ChatStateReceived f ChatState.Composing]
      else if m.active.isSome then [XmppEvent.ChatStateReceived f ChatState.Active]
      else if m.paused.isSome then [XmppEvent.ChatStateReceived f ChatState.Paused]
      else if m.inactive.isSome then [XmppEvent.ChatStateReceived f ChatState.Inactive]
      else if m.gone.isSome then [XmppEvent.ChatStateReceived f ChatState.Gone]
      else []
    let msgEvents :=
      if body ≠ "" then [XmppEvent.MessageReceived f t body stanza_id (some now)]
      else []
    (db, chatEvents ++ msgEvents)

/-- `XmppClient::handle_presence` (client.rs lines 663-716): drops the
stanza when `from` is absent; otherwise persists via `update_presence`
(show rendered by `Debug`, defaulting to "online"), then branches on
the presence type: subscribe/subscribed/unsubscribed produce
subscription events, available/unavailable produce `PresenceReceived`,
and unsubscribe/error/probe produce nothing. -/
def handle_presence (p : Presence) : List DbCall × List XmppEvent :=
  match p.«from» with
  | none => ([], [])
  | some f =>
    let showStr := (p.«show».map showDebug).getD "online"
    let db := [DbCall.update_presence f showStr p.status]
    let events :=
      match p.type_ with
      | .Subscribe => [XmppEvent.SubscriptionRequest f]
      | .Subscribed => [XmppEvent.SubscriptionApproved f]
      | .Unsubscribe => []
      | .Unsubscribed => [XmppEvent.SubscriptionDeclined f]
      | .Available => [XmppEvent.PresenceReceived f showStr p.status p.priority]
      | .Unavailable => [XmppEvent.PresenceReceived f showStr p.status p.priority]
      | .Error => []
      | .Probe => []
    (db, events)

/-- `XmppClient::handle_iq` (client.rs lines 718-758). The source runs
`Roster::try_from(iq.payload.clone().unwrap())`: an IQ with no payload
panics the dispatch task (modelled as `none`). On a roster payload it
computes `iq.from.as_ref().unwrap_or(&iq.to.unwrap())`; Rust evaluates
the `unwrap_or` argument eagerly, so an absent `to` also panics,
whether or not `from` is present. Otherwise it makes one
`add_roster_item` call per item and emits a single `RosterReceived`
whose items mirror the wire items (approved hardcoded false, ask none).
A non-roster payload is silently dropped. -/
def handle_iq (q : Iq) : Option (List DbCall × List XmppEvent) :=
  match q.payload with
  | none => none
  | some IqPayload.other => some ([], [])
  | some (IqPayload.roster items) =>
    match q.«to» with
    | none => none
    | some t =>
      let user_jid := q.«from».getD t
      let db := items.map (fun it => DbCall.add_roster_item user_jid it.jid it.name it.groups)
      let evItems := items.map (fun it =>
        { jid := it.jid, name := it.name, subscription := it.subscription,
          groups := it.groups, approved := false, ask := none : EventRosterItem })
      some (db, [XmppEvent.RosterReceived evItems])

/-- `XmppClient::handle_stanza` (client.rs lines 589-601): sequential
classification; message and presence handling are total, IQ handling
can panic (`none`), unrecognized elements are dropped. -/
def handle_stanza (s : Stanza) (now : Nat) : Option (List DbCall × List XmppEvent) :=
  match s with
  | .message m => some (handle_message m now)
  | .presence p => some (handle_presence p)
  | .iq q => handle_iq q
  | .unparseable => some ([], [])

/-- `client.rs` `XmppClientConfig`. Durations are modelled in seconds. -/
structure XmppClientConfig where
  jid : String
  password : String
  resource : String
  server_host : String
  server_port : Nat
  use_tls : Bool
  accept_invalid_certs : Bool
  auto_reconnect : Bool
  max_reconnect_attempts : Nat
  reconnect_delay : Nat
  deriving DecidableEq

/-- `impl Default for XmppClientConfig`. -/
def XmppClientConfig.default : XmppClientConfig :=
  { jid := "", password := "", resource := "xmpp-client",
    server_host := "localhost", server_port := 5222,
    use_tls := true, accept_invalid_certs := false,
    auto_reconnect := true, max_reconnect_attempts := 5,
    reconnect_delay := 10 }

/-- `client.rs` `XmppClientState`. -/
structure XmppClientState where
  connection_status : ConnectionStatus
  authenticated : Bool
  roster : List StorageRosterItem
  connected_at : Option Nat
  deriving DecidableEq

/-- `impl Default for XmppClientState`. -/
def XmppClientState.default : XmppClientState :=
  { connection_status := ConnectionStatus.Disconnected,
    authenticated := false, roster := [], connected_at := none }

/-- The mutable part of `XmppClient` that the command loop touches:
the config, the optional transport handle (`client: Option<AsyncClient>`,
the handle itself modelled as `Unit`), the published `ArcSwap` state
snapshot, and the shared `is_connected` flag. -/
structure XmppClientSelf where
  config : XmppClientConfig
  client : Option Unit
  state : XmppClientState
  is_connected : Bool
  deriving DecidableEq

/-- `XmppClient::new`: fresh client with default state and no transport. -/
def XmppClientSelf.new (cfg : XmppClientConfig) : XmppClientSelf :=
  { config := cfg, client := none, state := XmppClientState.default,
    is_connected := false }

/-- `client.rs` `ChatStateCommand`. -/
inductive ChatStateCommand where
  | Active
  | Inactive
  | Gone
  | Composing
  | Paused
  deriving DecidableEq

/-- `client.rs` `XmppCommand`. -/
inductive XmppCommand where
  | Connect
  | Disconnect
  | SendMessage («to» : Jid) (body : String) (chat_state : Option ChatStateCommand)
  | SendPresence («show» : PresenceShow) (status : Option String)
  | GetRoster
  | AddRosterItem (jid : Jid) (name : Option String) (groups : List String)
  | RemoveRosterItem (jid : Jid)
  | ApproveSubscription (jid : Jid)
  | DeclineSubscription (jid : Jid)
  | JoinMuc (room_jid : Jid) (nickname : String) (password : Option String)
  | LeaveMuc (room_jid : Jid)
  | SendMucMessage (room_jid : Jid) (body : String)
  | SendFile («to» : Jid) (file_path : String)
  deriving DecidableEq

/-- Fixed facts about the environment of one client: whether
`create_message_jid(&config.jid, _)` succeeds. `mod.rs` builds
`"{jid}/{resource}"` (or the bare jid) and runs the external
`Jid::from_str` on it; validity is a fixed property of the configured
jid, the same for the bare and the resourceful rendering (a valid full
JID has a valid bare prefix). -/
structure JidEnv where
  jid_ok : Bool
  deriving DecidableEq

/-- The rendering `create_message_jid(&config.jid, Some(&config.resource))`
produces when it succeeds (mod.rs lines 48-57). -/
def full_jid (cfg : XmppClientConfig) : Jid :=
  cfg.jid ++ "/" ++ cfg.resource

/-- Per-command outcomes of the fallible external operations a single
command execution can perform: `builder.build()` (transport open,
TLS handshake, authentication) for Connect, the (at most one
observable) transport write, plus the wall clock and the fresh UUID
for generated stanza ids. -/
structure IoOutcome where
  build_err : Option String
  send_err : Option String
  now : Nat
  fresh_uuid : String
  deriving DecidableEq

/-- `generate_message_id` (mod.rs): `format!("msg_{}", Uuid::new_v4())`. -/
def generate_message_id (uuid : String) : String := "msg_" ++ uuid

/-- Result of executing one command: the updated client, the
persistence calls and broadcast events in order, and the error that
`XmppClient::run` propagates out of the command loop (if any). -/
structure ExecResult where
  self : XmppClientSelf
  db : List DbCall
  events : List XmppEvent
  err : Option String
  deriving DecidableEq

/-- The error message `create_message_jid` wraps an invalid jid in. -/
def invalidJidError : String := "Invalid JID"

/-- `XmppClient::connect` (client.rs lines 228-292). Order of effects:
parse the full jid (failure returns before any state change or event);
publish `connection_status = Connecting` and emit `Connecting`; build
the transport (failure returns with the status left at `Connecting`);
send initial available presence (failure likewise); then store the
transport handle, set `is_connected`, publish
`{Connected, authenticated = true, connected_at = now}` and emit
`Connected{full jid}` then `AuthenticationSuccess`. -/
def connect (env : JidEnv) (self : XmppClientSelf) (io_ : IoOutcome) : ExecResult :=
  if ¬ env.jid_ok then
    { self := self, db := [], events := [], err := some invalidJidError }
  else
    let s1 := { self with state.connection_status := ConnectionStatus.Connecting }
    match io_.build_err with
    | some e => { self := s1, db := [], events := [XmppEvent.Connecting], err := some e }
    | none =>
      match io_.send_err with
      | some e => { self := s1, db := [], events := [XmppEvent.Connecting], err := some e }
      | none =>
        let s2 := { s1 with
                    client := some ()
                    is_connected := true
                    state := { s1.state with
                               connection_status := ConnectionStatus.Connected
                               authenticated := true
                               connected_at := some io_.now } }
        { self := s2, db := [],
          events := [XmppEvent.Connecting,
                     XmppEvent.Connected (full_jid self.config),
                     XmppEvent.AuthenticationSuccess],
          err := none }

/-- `XmppClient::disconnect` (client.rs lines 294-319). The unavailable
presence and stream close are best-effort (failures only logged, no
observable effect), the transport handle is dropped, `is_connected`
cleared, `connection_status`/`authenticated` reset (note:
`connected_at` is NOT touched), and `Disconnected` emitted. Never
returns an error. -/
def disconnect (self : XmppClientSelf) : ExecResult :=
  let s1 := { self with
              client := none
              is_connected := false
              state := { self.state with
                         connection_status := ConnectionStatus.Disconnected
                         authenticated := false } }
  { self := s1, db := [],
    events := [XmppEvent.Disconnected "User requested disconnect"],
    err := none }

/-- One iteration of `XmppClient::run`'s command loop (client.rs lines
175-226) together with the command method it calls. Only `Connect`
errors are caught and converted into a `ConnectionError` event; every
other method's error is propagated with `?`, which makes `run` return
`Err` and ends the loop. Methods other than connect/disconnect/send_file
silently do nothing when no transport handle is present (`if let
Some(client) = &self.client`). -/
def exec_command (env : JidEnv) (self : XmppClientSelf) (c : XmppCommand)
    (io_ : IoOutcome) : ExecResult :=
  match c with
  | .Connect =>
    let r := connect env self io_
    match r.err with
    | some e => { r with events := r.events ++ [XmppEvent.ConnectionError e], err := none }
    | none => r
  | .Disconnect => disconnect self
  | .SendMessage t body _chat_state =>
    -- send_message (lines 321-377): generate id, parse from-jid, and if
    -- a transport exists write the stanza, persist it (type "chat") and
    -- emit MessageSent; the chat-state marker only decorates the wire
    -- stanza.
    if ¬ env.jid_ok then { self := self, db := [], events := [], err := some invalidJidError }
    else
      match self.client with
      | none => { self := self, db := [], events := [], err := none }
      | some _ =>
        match io_.send_err with
        | some e => { self := self, db := [], events := [], err := some e }
        | none =>
          let sid := generate_message_id io_.fresh_uuid
          { self := self,
            db := [DbCall.save_message (full_jid self.config) t body "chat" sid],
            events := [XmppEvent.MessageSent t body sid], err := none }
  | .SendPresence sh status =>
    -- send_presence (lines 379-400): no jid parse; write and emit
    -- PresenceSent with the Debug rendering of the show value.
    match self.client with
    | none => { self := self, db := [], events := [], err := none }
    | some _ =>
      match io_.send_err with
      | some e => { self := self, db := [], events := [], err := some e }
      | none =>
        { self := self, db := [], events := [XmppEvent.PresenceSent (showDebug sh) status],
          err := none }
  | .GetRoster =>
    -- request_roster (lines 402-414): parse from-jid, write the roster
    -- get IQ; no events, no persistence.
    if ¬ env.jid_ok then { self := self, db := [], events := [], err := some invalidJidError }
    else
      match self.client with
      | none => { self := self, db := [], events := [], err := none }
      | some _ =>
        match io_.send_err with
        | some e => { self := self, db := [], events := [], err := some e }
        | none => { self := self, db := [], events := [], err := none }
  | .AddRosterItem jid name groups =>
    -- add_roster_item (lines 416-450): parse from-jid, write the roster
    -- set IQ, then persist locally under the bare jid; no event.
    if ¬ env.jid_ok then { self := self, db := [], events := [], err := some invalidJidError }
    else
      match self.client with
      | none => { self := self, db := [], events := [], err := none }
      | some _ =>
        match io_.send_err with
        | some e => { self := self, db := [], events := [], err := some e }
        | none =>
          { self := self,
            db := [DbCall.add_roster_item self.config.jid jid name groups],
            events := [], err := none }
  | .RemoveRosterItem _jid =>
    -- remove_roster_item (lines 452-466): parse, write; nothing else.
    if ¬ env.jid_ok then { self := self, db := [], events := [], err := some invalidJidError }
    else
      match self.client with
      | none => { self := self, db := [], events := [], err := none }
      | some _ =>
        match io_.send_err with
        | some e => { self := self, db := [], events := [], err := some e }
        | none => { self := self, db := [], events := [], err := none }
  | .ApproveSubscription jid =>
    -- approve_subscription (lines 468-481).
    if ¬ env.jid_ok then { self := self, db := [], events := [], err := some invalidJidError }
    else
      match self.client with
      | none => { self := self, db := [], events := [], err := none }
      | some _ =>
        match io_.send_err with
        | some e => { self := self, db := [], events := [], err := some e }
        | none =>
          { self := self, db := [], events := [XmppEvent.SubscriptionApproved jid],
            err := none }
  | .DeclineSubscription jid =>
    -- decline_subscription (lines 483-496).
    if ¬ env.jid_ok then { self := self, db := [], events := [], err := some invalidJidError }
    else
      match self.client with
      | none => { self := self, db := [], events := [], err := none }
      | some _ =>
        match io_.send_err with
        | some e => { self := self, db := [], events := [], err := some e }
        | none =>
          { self := self, db := [], events := [XmppEvent.SubscriptionDeclined jid],
            err := none }
  | .JoinMuc room nickname _password =>
    -- join_muc (lines 498-534).
    if ¬ env.jid_ok then { self := self, db := [], events := [], err := some invalidJidError }
    else
      match self.client with
      | none => { self := self, db := [], events := [], err := none }
      | some _ =>
        match io_.send_err with
        | some e => { self := self, db := [], events := [], err := some e }
        | none =>
          { self := self, db := [], events := [XmppEvent.MucJoined room nickname],
            err := none }
  | .LeaveMuc room =>
    -- leave_muc (lines 536-549).
    if ¬ env.jid_ok then { self := self, db := [], events := [], err := some invalidJidError }
    else
      match self.client with
      | none => { self := self, db := [], events := [], err := none }
      | some _ =>
        match io_.send_err with
        | some e => { self := self, db := [], events := [], err := some e }
        | none =>
          { self := self, db := [], events := [XmppEvent.MucLeft room], err := none }
  | .SendMucMessage room body =>
    -- send_muc_message (lines 551-574): the echoed event names the
    -- sender itself with nickname "me".
    if ¬ env.jid_ok then { self := self, db := [], events := [], err := some invalidJidError }
    else
      match self.client with
      | none => { self := self, db := [], events := [], err := none }
      | some _ =>
        match io_.send_err with
        | some e => { self := self, db := [], events := [], err := some e }
        | none =>
          { self := self, db := [],
            events := [XmppEvent.MucMessageReceived room (full_jid self.config) "me" body
                        (some io_.now)],
            err := none }
  | .SendFile _t _path =>
    -- send_file (lines 576-587): unconditional FileTransferError.
    { self := self, db := [],
      events := [XmppEvent.FileTransferError (generate_message_id io_.fresh_uuid)
                  "File transfer not yet implemented"],
      err := none }

/-- The command loop of `XmppClient::run`: commands are consumed in
submission order; the first error propagated by `?` ends the loop (the
remaining commands are never executed). Returns the final client, all
persistence calls and events in order, and the terminating error if
any. -/
def run_loop (env : JidEnv) (self : XmppClientSelf) :
    List (XmppCommand × IoOutcome) → XmppClientSelf × List DbCall × List XmppEvent × Option String
  | [] => (self, [], [], none)
  | (c, io_) :: rest =>
    let r := exec_command env self c io_
    match r.err with
    | some e => (r.self, r.db, r.events, some e)
    | none =>
      let (s2, db2, ev2, err2) := run_loop env r.self rest
      (s2, r.db ++ db2, r.events ++ ev2, err2)

/-- Recognizer for the `*Error` event family of `events.rs`
(`ConnectionError`, `AuthenticationError`, `FileTransferError`,
`Error`; the only error variants the embedded core can produce). -/
def isErrorEvent : XmppEvent → Bool
  | .ConnectionError _ => true
  | .AuthenticationError _ => true
  | .FileTransferError _ _ => true
  | .Error _ _ => true
  | _ => false

/-- Recognizer for `RosterReceived` events. -/
def isRosterReceived : XmppEvent → Bool
  | .RosterReceived _ => true
  | _ => false

/-- Recognizer for `ChatStateReceived` events. -/
def isChatStateReceived : XmppEvent → Bool
  | .ChatStateReceived _ _ => true
  | _ => false

/-- Recognizer for `MessageReceived` events. -/
def isMessageReceived : XmppEvent → Bool
  | .MessageReceived _ _ _ _ _ => true
  | _ => false

/-- Which chat-state hint markers an inbound message carries (the five
`Option<_>` children of the source `Message`, tested with `is_some`). -/
def chatStateHinted (m : Message) : ChatState → Bool
  | .Composing => m.composing.isSome
  | .Active => m.active.isSome
  | .Paused => m.paused.isSome
  | .Inactive => m.inactive.isSome
  | .Gone => m.gone.isSome

/-- Modelled from the spec's words (claim C8): the fixed priority order
composing > active > paused > inactive > gone, smaller rank = higher
priority. Used only to compare the source's selection against the
claim. -/
def specChatStatePriority : ChatState → Nat
  | .Composing => 0
  | .Active => 1
  | .Paused => 2
  | .Inactive => 3
  | .Gone => 4

/-! Concrete scenario inputs shared by the theorems below. -/

/-- A config with the example account of the spec's scenarios. -/
def cfgA : XmppClientConfig := { XmppClientConfig.default with jid := "user@localhost" }

/-- Environment where the configured JID is valid. -/
def envOk : JidEnv := { jid_ok := true }

/-- Outcomes for a step where every external operation succeeds. -/
def ioOk : IoOutcome := { build_err := none, send_err := none, now := 5, fresh_uuid := "u1" }

/-- Outcomes for a step where `builder.build()` fails. -/
def ioBuildFail : IoOutcome :=
  { build_err := some "connection refused", send_err := none, now := 7, fresh_uuid := "u2" }

/-- Outcomes for a step where the transport write fails. -/
def ioSendFail : IoOutcome :=
  { build_err := none, send_err := some "io error", now := 9, fresh_uuid := "u3" }

/-- An inbound message with no `from`, carrying a body, an id and a
chat-state hint. -/
def msgNoFrom : Message :=
  { «from» := none, «to» := some "user@localhost", bodies := ["hi"], id := some "id1",
    type_ := MessageType.Chat, composing := some (), active := none, paused := none,
    inactive := none, gone := none }

/-- An inbound message with an empty body list but a composing hint. -/
def msgEmptyBodyComposing : Message :=
  { «from» := some "b@localhost", «to» := some "user@localhost", bodies := [], id := some "id2",
    type_ := MessageType.Chat, composing := some (), active := none, paused := none,
    inactive := none, gone := none }

/-- An inbound message carrying all five chat-state hints at once. -/
def msgAllHints : Message :=
  { «from» := some "b@localhost", «to» := some "user@localhost", bodies := ["x"], id := some "id3",
    type_ := MessageType.Chat, composing := some (), active := some (), paused := some (),
    inactive := some (), gone := some () }

/-- The inbound presence of the spec's scenario: from b@localhost/res,
type available, show away, status brb (no priority). -/
def presenceScenario : Presence :=
  { «from» := some "b@localhost/res", «show» := some PresenceShow.Away,
    status := some "brb", priority := none, type_ := PresenceType.Available }

/-- A roster wire item. -/
def rosterItemC : RosterItemWire :=
  { jid := "c@localhost", name := some "C", subscription := "both", groups := ["friends"] }

/-- A second roster wire item. -/
def rosterItemD : RosterItemWire :=
  { jid := "d@localhost", name := none, subscription := "to", groups := [] }

/-! Claim theorems. -/

/-- Claim C10 (confirmed): for every inbound message stanza whose
`from` attribute is absent, dispatch is a complete no-op: no event is
emitted and no persistence call (in particular no `save_message`) is
made. -/
theorem C10_message_without_from_is_noop (m : Message) (now : Nat)
    (h : m.«from» = none) : handle_message m now = ([], []) := by
  unfold handle_message
  rw [h]

/-- Witness for C10: the no-from message above, which carries a body,
an id and a composing hint, produces no persistence call and no event. -/
theorem C10_witness : handle_message msgNoFrom 5 = ([], []) :=
  C10_message_without_from_is_noop msgNoFrom 5 rfl

/-- Claim C7 (confirmed): an inbound message whose first body text is
empty or absent never produces a `MessageReceived` event (the
chat-state event may still fire; see the witness). -/
theorem C7_empty_body_no_message_received (m : Message) (now : Nat)
    (hbody : (m.bodies.head?).getD "" = "")
    (f t : Jid) (b sid : String) (ts : Option Nat) :
    XmppEvent.MessageReceived f t b sid ts ∉ (handle_message m now).2 := by
  unfold handle_message
  cases hf : m.«from» with
  | none => simp
  | some g =>
    simp only [hbody]
    intro hmem
    simp only [List.mem_append] at hmem
    rcases hmem with hmem | hmem
    · split at hmem <;> [skip; split at hmem] <;> [skip; skip; split at hmem]
        <;> [skip; skip; skip; split at hmem] <;> [skip; skip; skip; skip; split at hmem]
        <;> simp_all
    · simp at hmem

/-- Witness for C7: an empty-body message with a composing hint is
persisted and still yields the chat-state event, but no
`MessageReceived`. -/
theorem C7_witness :
    (handle_message msgEmptyBodyComposing 5).2
      = [XmppEvent.ChatStateReceived "b@localhost" ChatState.Composing] ∧
    XmppEvent.MessageReceived "b@localhost" "user@localhost" "" "id2" (some 5)
      ∉ (handle_message msgEmptyBodyComposing 5).2 :=
  ⟨rfl, C7_empty_body_no_message_received msgEmptyBodyComposing 5 rfl _ _ _ _ _⟩

/-- Helper for C8: the events of one inbound message contain at most
one `ChatStateReceived`. -/
lemma handle_message_chatState_count_le_one (m : Message) (now : Nat) :
    ((handle_message m now).2.filter isChatStateReceived).length ≤ 1 := by
  unfold handle_message
  cases hf : m.«from» with
  | none => simp
  | some g =>
    by_cases hc : m.composing.isSome <;>
    by_cases ha : m.active.isSome <;>
    by_cases hp : m.paused.isSome <;>
    by_cases hi : m.inactive.isSome <;>
    by_cases hg : m.gone.isSome <;>
    simp only [hc, ha, hp, hi, hg, if_true, if_false, List.filter_append] <;>
    split <;> (try split) <;> simp [isChatStateReceived]

/-- Helper for C8: any emitted `ChatStateReceived` names the sender, is
a hint the stanza actually carries, and is of maximal priority among
the carried hints under the order composing > active > paused >
inactive > gone. -/
lemma handle_message_chatState_mem_spec (m : Message) (now : Nat) (f : Jid) (st : ChatState)
    (hmem : XmppEvent.ChatStateReceived f st ∈ (handle_message m now).2) :
    m.«from» = some f ∧ chatStateHinted m st = true ∧
    ∀ st', chatStateHinted m st' = true →
      specChatStatePriority st ≤ specChatStatePriority st' := by
  revert hmem
  unfold handle_message
  cases hf : m.«from» with
  | none => simp
  | some g =>
    intro hmem
    rcases List.mem_append.mp hmem with h | h
    · repeat' split at h
      all_goals
        first
          | exact absurd h (List.not_mem_nil _)
          | (simp at h
             obtain ⟨hfg, hst⟩ := h
             subst hfg; subst hst
             refine ⟨rfl, by simp_all [chatStateHinted], ?_⟩
             intro st' hst'
             cases st' <;> simp_all [chatStateHinted, specChatStatePriority])
    · split at h <;> simp_all

/-- Claim C8 (confirmed): for every inbound message stanza at most one
`ChatStateReceived` event is emitted, and the reported state is a hint
the stanza carries, chosen by the fixed priority order composing >
active > paused > inactive > gone (first match wins). -/
theorem C8_chat_state_priority (m : Message) (now : Nat) :
    ((handle_message m now).2.filter isChatStateReceived).length ≤ 1 ∧
    ∀ f st, XmppEvent.ChatStateReceived f st ∈ (handle_message m now).2 →
      m.«from» = some f ∧ chatStateHinted m st = true ∧
      ∀ st', chatStateHinted m st' = true →
        specChatStatePriority st ≤ specChatStatePriority st' :=
  ⟨handle_message_chatState_count_le_one m now,
   fun f st hmem => handle_message_chatState_mem_spec m now f st hmem⟩

/-- Witness for C8: on a message carrying all five hints at once, the
emitted state is composing, which the theorem certifies as hinted and
of maximal priority. -/
theorem C8_witness :
    ((handle_message msgAllHints 5).2.filter isChatStateReceived).length ≤ 1 ∧
    (msgAllHints.«from» = some "b@localhost" ∧
     chatStateHinted msgAllHints ChatState.Composing = true ∧
     ∀ st', chatStateHinted msgAllHints st' = true →
       specChatStatePriority ChatState.Composing ≤ specChatStatePriority st') :=
  ⟨(C8_chat_state_priority msgAllHints 5).1,
   (C8_chat_state_priority msgAllHints 5).2 "b@localhost" ChatState.Composing (by decide)⟩

/-- Claim C9 (corrected): the spec's presence scenario, as the code
actually runs it. The inbound show value `away` is carried as the
parsed `Show::Away` and rendered through `format!("{:?}", _)`, so the
emitted `PresenceReceived` and the `update_presence` call carry the
string "Away" (capitalized Debug rendering), not the wire string
"away"; everything else matches the claim. -/
theorem C9_amended_presence_scenario :
    handle_presence presenceScenario
      = ([DbCall.update_presence "b@localhost/res" "Away" (some "brb")],
         [XmppEvent.PresenceReceived "b@localhost/res" "Away" (some "brb") none]) := rfl

/-- Counterexample for C9 as stated: the event with show "away" (the
claim's literal value) is not among the emitted events, and no
`update_presence` call with show "away" is made; the code emits "Away". -/
theorem C9_counterexample :
    XmppEvent.PresenceReceived "b@localhost/res" "away" (some "brb") none
        ∉ (handle_presence presenceScenario).2 ∧
    DbCall.update_presence "b@localhost/res" "away" (some "brb")
        ∉ (handle_presence presenceScenario).1 ∧
    (handle_presence presenceScenario).2
        = [XmppEvent.PresenceReceived "b@localhost/res" "Away" (some "brb") none] := by
  refine ⟨?_, ?_, rfl⟩ <;> decide

/-- Claim C6 (corrected, for roster IQs whose `to` attribute is
present): a roster-result IQ with N items and a `to` attribute
produces exactly one `RosterReceived` event whose item list has
exactly N elements, and exactly N `add_roster_item` calls, the i-th
call persisting the i-th wire item under the `from`-or-`to` user jid. -/
theorem C6_amended_roster_result (q : Iq) (items : List RosterItemWire) (t : Jid)
    (hp : q.payload = some (IqPayload.roster items)) (ht : q.«to» = some t) :
    ∃ db its, handle_iq q = some (db, [XmppEvent.RosterReceived its]) ∧
      its.length = items.length ∧ db.length = items.length ∧
      ∀ (i : Nat) (it : RosterItemWire), items[i]? = some it →
        db[i]? = some (DbCall.add_roster_item (q.«from».getD t) it.jid it.name it.groups) := by
  have h : handle_iq q = some
      (items.map (fun it => DbCall.add_roster_item (q.«from».getD t) it.jid it.name it.groups),
       [XmppEvent.RosterReceived (items.map (fun it =>
         { jid := it.jid, name := it.name, subscription := it.subscription,
           groups := it.groups, approved := false, ask := none }))]) := by
    unfold handle_iq
    rw [hp, ht]
  refine ⟨_, _, h, by simp, by simp, ?_⟩
  intro i it hit
  simp [List.getElem?_map, hit]

/-- Witness for C6: a concrete two-item roster result addressed to the
user produces one `RosterReceived` with two items and two
`add_roster_item` calls. -/
theorem C6_witness :
    ∃ db its,
      handle_iq { «from» := none, «to» := some "user@localhost",
                  payload := some (IqPayload.roster [rosterItemC, rosterItemD]) }
        = some (db, [XmppEvent.RosterReceived its]) ∧
      its.length = [rosterItemC, rosterItemD].length ∧
      db.length = [rosterItemC, rosterItemD].length ∧
      ∀ (i : Nat) (it : RosterItemWire), [rosterItemC, rosterItemD][i]? = some it →
        db[i]? = some (DbCall.add_roster_item "user@localhost" it.jid it.name it.groups) :=
  C6_amended_roster_result _ [rosterItemC, rosterItemD] "user@localhost" rfl rfl

/-- Counterexample for C6 as stated: a roster-result IQ carrying one
item but no `to` attribute panics the dispatch task (the eager
`iq.to.unwrap()`), so no `RosterReceived` event and no
`add_roster_item` call is produced for its N = 1 items. -/
theorem C6_counterexample :
    handle_iq { «from» := some "user@localhost", «to» := none,
                payload := some (IqPayload.roster [rosterItemC]) } = none := rfl

/-- Claim C4 (code_bug): `handle_stanza` does crash. An IQ stanza with
no payload panics at `iq.payload.clone().unwrap()`, and a roster-result
IQ without a `to` attribute panics at the eagerly evaluated
`iq.to.unwrap()` — both modelled as `none` (the dispatch task panics
instead of returning normally). Messages, presences and unrecognized
elements are indeed handled totally. -/
theorem C4_iq_dispatch_panics :
    handle_stanza (Stanza.iq { «from» := none, «to» := some "user@localhost", payload := none }) 0
      = none ∧
    handle_stanza (Stanza.iq { «from» := some "user@localhost", «to» := none,
                               payload := some (IqPayload.roster [rosterItemC]) }) 0
      = none ∧
    handle_stanza Stanza.unparseable 0 = some ([], []) :=
  ⟨rfl, rfl, rfl⟩

/-- The final client after Connect (succeeding at time 5) immediately
followed by Disconnect, with no intervening inbound stanza. -/
def c2Final : XmppClientSelf :=
  (run_loop envOk (XmppClientSelf.new cfgA)
    [(XmppCommand.Connect, ioOk), (XmppCommand.Disconnect, ioOk)]).1

/-- Claim C2 (code_bug): after Connect immediately followed by
Disconnect the published state has `connection_status = Disconnected`
and `authenticated = false`, but `connected_at` is still the connect
timestamp: `XmppClient::disconnect` resets only `connection_status` and
`authenticated` and never clears `connected_at`, contradicting the
spec's `connected_at = None`. -/
theorem C2_connect_disconnect_final_state :
    c2Final.state.connection_status = ConnectionStatus.Disconnected ∧
    c2Final.state.authenticated = false ∧
    c2Final.state.connected_at = some 5 ∧
    c2Final.state.connected_at ≠ none := by decide

/-- The final client after a successful Connect followed by a second
Connect whose transport build fails. -/
def c5Final : XmppClientSelf :=
  (run_loop envOk (XmppClientSelf.new cfgA)
    [(XmppCommand.Connect, ioOk), (XmppCommand.Connect, ioBuildFail)]).1

/-- Claim C5 (code_bug): the invariant `authenticated → Connected`
fails on a reachable state. A Connect issued while already connected
first publishes `connection_status = Connecting` without clearing
`authenticated`; when that second connect then fails, the loop settles
in a published state with `authenticated = true` and
`connection_status = Connecting`. -/
theorem C5_authenticated_without_connected :
    c5Final.state.authenticated = true ∧
    c5Final.state.connection_status = ConnectionStatus.Connecting ∧
    c5Final.state.connection_status ≠ ConnectionStatus.Connected := by decide

/-- Shared helper: behaviour of a failing Connect command, as
dispatched by the command loop. -/
lemma connect_failure_spec (env : JidEnv) (self : XmppClientSelf) (io_ : IoOutcome)
    (hfail : ¬ env.jid_ok ∨ io_.build_err ≠ none ∨ io_.send_err ≠ none) :
    (∃ e, XmppEvent.ConnectionError e ∈ (exec_command env self XmppCommand.Connect io_).events) ∧
    (exec_command env self XmppCommand.Connect io_).err = none ∧
    (exec_command env self XmppCommand.Connect io_).self.state.connection_status
      = (if env.jid_ok then ConnectionStatus.Connecting else self.state.connection_status) := by
  by_cases hj : env.jid_ok
  · cases hb : io_.build_err with
    | some e => simp [exec_command, connect, hj, hb]
    | none =>
      cases hs : io_.send_err with
      | some e => simp [exec_command, connect, hj, hb, hs]
      | none => rcases hfail with h | h | h <;> simp_all
  · simp [exec_command, connect, hj]

/-- Result of a first Connect command whose transport build fails. -/
def c1Res : ExecResult :=
  exec_command envOk (XmppClientSelf.new cfgA) XmppCommand.Connect ioBuildFail

/-- Counterexample for C1 as stated: when `builder.build()` fails, the
command does emit `ConnectionError`, but the published
`connection_status` after the command is `Connecting`, not
`Disconnected`: the error branch of `XmppClient::run` never resets the
status set at the start of `connect`. -/
theorem C1_counterexample :
    c1Res.events = [XmppEvent.Connecting, XmppEvent.ConnectionError "connection refused"] ∧
    c1Res.self.state.connection_status = ConnectionStatus.Connecting ∧
    c1Res.self.state.connection_status ≠ ConnectionStatus.Disconnected := by decide

/-- Claim C1 (corrected): if the connect sequence fails at any step, a
`ConnectionError` event is emitted and the command loop keeps running;
the published `connection_status` is `Connecting` whenever the failure
happens at or after transport building (the status having been set
before any fallible I/O), and only a JID-parse failure leaves the
previous status (hence `Disconnected` from the initial state). -/
theorem C1_amended_connect_failure (env : JidEnv) (self : XmppClientSelf) (io_ : IoOutcome)
    (hfail : ¬ env.jid_ok ∨ io_.build_err ≠ none ∨ io_.send_err ≠ none) :
    (∃ e, XmppEvent.ConnectionError e ∈ (exec_command env self XmppCommand.Connect io_).events) ∧
    (exec_command env self XmppCommand.Connect io_).err = none ∧
    (exec_command env self XmppCommand.Connect io_).self.state.connection_status
      = (if env.jid_ok then ConnectionStatus.Connecting else self.state.connection_status) :=
  connect_failure_spec env self io_ hfail

/-- Witness for C1 (amended): the concrete failing Connect above. -/
theorem C1_witness :
    (∃ e, XmppEvent.ConnectionError e
        ∈ (exec_command envOk (XmppClientSelf.new cfgA) XmppCommand.Connect ioBuildFail).events) ∧
    (exec_command envOk (XmppClientSelf.new cfgA) XmppCommand.Connect ioBuildFail).err = none ∧
    (exec_command envOk (XmppClientSelf.new cfgA) XmppCommand.Connect ioBuildFail).self.state.connection_status
      = (if envOk.jid_ok then ConnectionStatus.Connecting
         else (XmppClientSelf.new cfgA).state.connection_status) :=
  C1_amended_connect_failure envOk (XmppClientSelf.new cfgA) ioBuildFail
    (Or.inr (Or.inl (by decide)))

/-- The connected client reached by one successful Connect. -/
def c3Connected : XmppClientSelf :=
  (run_loop envOk (XmppClientSelf.new cfgA) [(XmppCommand.Connect, ioOk)]).1

/-- Result of a SendMessage whose transport write fails, issued on the
connected client. -/
def c3Res : ExecResult :=
  exec_command envOk c3Connected (XmppCommand.SendMessage "a@localhost" "hi" none) ioSendFail

/-- Counterexample for C3 as stated: a SendMessage whose transport
write fails produces no broadcast event at all (in particular no
`*Error` event); the error only propagates out of the command loop and
terminates it. -/
theorem C3_counterexample :
    c3Res.err = some "io error" ∧ c3Res.events = [] ∧
    c3Res.events.filter isErrorEvent = [] := by decide

/-- Claim C3 (corrected): only Connect failures are reported as a
broadcast event (`ConnectionError`). Any other command whose execution
fails emits no event whatsoever (its failure surfaces solely as the
error return that terminates the command loop). -/
theorem C3_amended_error_reporting (env : JidEnv) (self : XmppClientSelf)
    (c : XmppCommand) (io_ : IoOutcome) :
    (∀ e, (exec_command env self c io_).err = some e →
      (exec_command env self c io_).events = []) ∧
    (c = XmppCommand.Connect → (exec_command env self c io_).err = none) ∧
    (c = XmppCommand.Connect →
      (¬ env.jid_ok ∨ io_.build_err ≠ none ∨ io_.send_err ≠ none) →
      ∃ e, XmppEvent.ConnectionError e ∈ (exec_command env self c io_).events) := by
  refine ⟨?_, ?_, ?_⟩
  · intro e he
    cases c <;>
      simp only [exec_command, connect, disconnect] at he ⊢ <;>
      (repeat' split at he) <;>
      simp_all
  · intro hc; subst hc
    simp only [exec_command]
    split <;> simp_all
  · intro hc hfail; subst hc
    exact (connect_failure_spec env self io_ hfail).1

/-- Witness for C3 (amended): the concrete failing SendMessage above
emits no broadcast event. -/
theorem C3_witness : c3Res.events = [] :=
  (C3_amended_error_reporting envOk c3Connected
    (XmppCommand.SendMessage "a@localhost" "hi" none) ioSendFail).1 "io error" (by decide)

end Dialogo
